import Mathlib

/-!
Shallow embedding of the recommendation engine of the Nourish-AI repository
(backend/app/services/recommendation_engine.py together with the data model in
backend/app/models/recommendation.py, nutrition.py, user.py and the feedback
boundary in backend/app/api/v1/endpoints/recommendations.py plus
backend/app/utils/validators.py).

Numbers are embedded as rationals (the Python code computes with floats, but
every constant and every operation used by the engine is exact decimal
arithmetic), Python dicts keyed by nutrient names as association lists, and
exceptions as `Except`.  The external food-suggestion generator (the OpenAI
service) is a black box supplied as a function in the environment, matching
the repository spec which treats it as an external collaborator.
-/

/-- Substring containment, the embedding of the Python `needle in hay` test on
strings.  An empty needle is contained in everything, as in Python. -/
def strContains (hay needle : String) : Bool :=
  decide (needle.data <:+: hay.data)

/-- Python str.lower, embedded character-wise (all strings the engine matches
on are ASCII). -/
def lowerStr (s : String) : String :=
  ⟨s.data.map Char.toLower⟩

/-- Python str.title as used on meal-type names: uppercase a letter that starts
an alphabetic run, lowercase the rest. -/
def pyTitle (s : String) : String :=
  ⟨(s.data.foldl
      (fun (acc : List Char × Bool) c =>
        (acc.1 ++ [if acc.2 then c.toLower else c.toUpper], c.isAlpha))
      ([], false)).1⟩

/-- A Python dict of nutrient name to amount, embedded as an association list. -/
abbrev Intake := List (String × ℚ)

/-- Python dict .get(key, 0), as used on the current-intake dict. -/
def intake_get (intake : Intake) (k : String) : ℚ :=
  match intake.find? (fun p => p.1 == k) with
  | some p => p.2
  | none => 0

/-- HealthCondition (models/user.py): only the name is read by the engine. -/
structure HealthCondition where
  name : String
  severity : Option String := none
  notes : Option String := none
deriving Repr, DecidableEq

/-- DietaryRestriction (models/user.py): only the type is read by the engine. -/
structure DietaryRestriction where
  type : String
  severity : Option String := none
  notes : Option String := none
deriving Repr, DecidableEq

/-- User (models/user.py), restricted to the fields the engine reads.  The
string-valued enums (gender, activity level, goal) are embedded as strings. -/
structure User where
  id : String
  age : Option Int := none
  gender : Option String := none
  activity_level : Option String := none
  primary_goal : Option String := none
  health_conditions : List HealthCondition := []
  dietary_restrictions : List DietaryRestriction := []
  allergies : List String := []
deriving Repr, DecidableEq

/-- MacroTargets (models/nutrition.py). -/
structure MacroTargets where
  calories : ℚ
  protein_g : ℚ
  carbs_g : ℚ
  fat_g : ℚ
  fiber_g : ℚ
deriving Repr, DecidableEq

/-- NutritionProfile (models/nutrition.py), restricted to the fields the engine
reads; meal_distribution defaults as in the source. -/
structure NutritionProfile where
  user_id : String
  macro_targets : MacroTargets
  meal_distribution : List (String × ℚ) :=
    [("breakfast", 0.25), ("lunch", 0.35), ("dinner", 0.30), ("snack", 0.10)]
deriving Repr, DecidableEq

/-- RecommendationType (models/recommendation.py). -/
inductive RecommendationType where
  | daily_nutrition
  | food_suggestion
  | meal_plan
  | nutrient_adjustment
  | health_optimization
deriving Repr, DecidableEq

/-- ConfidenceLevel (models/recommendation.py). -/
inductive ConfidenceLevel where
  | low
  | medium
  | high
  | very_high
deriving Repr, DecidableEq

/-- NutrientAdjustment (models/recommendation.py, lines 68-81).  Note: the
schema declares no priority field; that fact is the root of the latent bug in
the gap analyzer. -/
structure NutrientAdjustment where
  nutrient_name : String
  current_intake : ℚ
  recommended_intake : ℚ
  adjustment_amount : ℚ
  adjustment_direction : String
  unit : String
  reason : String
  health_impact : String
  food_sources : List String := []
  supplement_suggestion : Option String := none
deriving Repr, DecidableEq

/-- FoodSuggestion (models/recommendation.py). -/
structure FoodSuggestion where
  fdc_id : Int
  food_name : String
  serving_size : ℚ
  serving_unit : String
  calories : ℚ
  protein_g : ℚ
  carbs_g : ℚ
  fat_g : ℚ
  fiber_g : Option ℚ := none
  reason : String
  meal_type : Option String := none
  priority_score : ℚ
  nutritional_benefits : List String := []
  matches_dietary_restrictions : Bool := true
  allergen_warnings : List String := []
deriving Repr, DecidableEq

/-- MealPlan (models/recommendation.py); the wall-clock date field is outside
the embedding. -/
structure MealPlan where
  meals : List (String × List FoodSuggestion)
  total_calories : ℚ
  total_protein_g : ℚ
  total_carbs_g : ℚ
  total_fat_g : ℚ
  total_fiber_g : ℚ
  plan_type : String
  difficulty_level : String
  prep_time_minutes : Option Int := none
  cost_estimate : Option ℚ := none
deriving Repr, DecidableEq

/-- Recommendation (models/recommendation.py), restricted to the fields the
engine writes or the claims read; timestamps and the document id are outside
the embedding. -/
structure Recommendation where
  user_id : String
  recommendation_type : RecommendationType
  title : String
  description : String
  confidence_level : ConfidenceLevel
  food_suggestions : List FoodSuggestion := []
  meal_plan : Option MealPlan := none
  nutrient_adjustments : List NutrientAdjustment := []
  model_version : String
  model_confidence : ℚ
  features_used : List String := []
  user_goals : List String := []
  health_conditions : List String := []
  dietary_restrictions : List String := []
  priority : Nat
  expected_impact : String
  implementation_difficulty : String
  time_horizon : String
  is_active : Bool := true
  is_viewed : Bool := false
  is_accepted : Bool := false
  user_feedback : Option String := none
  user_rating : Option Int := none
deriving Repr, DecidableEq

/-- Exceptions that can escape a sub-generator of the engine. -/
inductive EngineError where
  | attributeError
deriving Repr, DecidableEq

instance {ε α : Type} [DecidableEq ε] [DecidableEq α] : DecidableEq (Except ε α) :=
  fun a b =>
    match a, b with
    | Except.ok x, Except.ok y => decidable_of_iff (x = y) (by simp)
    | Except.error x, Except.error y => decidable_of_iff (x = y) (by simp)
    | Except.ok _, Except.error _ => isFalse (by simp)
    | Except.error _, Except.ok _ => isFalse (by simp)

/-- Gap-analysis thresholds (recommendation_engine.py, self.nutrient_thresholds).
The deficit threshold named protein_deficit_threshold is applied to every
macro nutrient. -/
def critical_threshold : ℚ := 0.5

/-- Deficit threshold 0.8 (80 percent of target). -/
def protein_deficit_threshold : ℚ := 0.8

/-- Excess threshold 1.5 (150 percent of target). -/
def excess_threshold : ℚ := 1.5

/-- The severity classification of the gap-analysis loop
(recommendation_engine.py, lines 160-170): the branch taken for a given
ratio; none means the continue branch (within acceptable range). -/
def classify_gap_severity (ratio : ℚ) : Option String :=
  if ratio < critical_threshold then some "critical"
  else if ratio < protein_deficit_threshold then some "high"
  else if ratio > excess_threshold then some "excess"
  else none

/-- Python nutrient.replace with underscore replaced by a space. -/
def replaceUnderscores (s : String) : String :=
  ⟨s.data.map (fun c => if c = '_' then ' ' else c)⟩

/-- _get_nutrient_gap_reason (recommendation_engine.py, lines 717-735). -/
def get_nutrient_gap_reason (nutrient : String) (ratio : ℚ) (_user : User) : String :=
  let severity :=
    if ratio < 0.5 then "critically low"
    else if ratio < 0.8 then "below target"
    else "above recommended levels"
  let benefit :=
    if nutrient = "protein_g" then "muscle maintenance and repair"
    else if nutrient = "fiber_g" then "digestive health and blood sugar control"
    else if nutrient = "calories" then "energy balance and metabolic function"
    else if nutrient = "carbs_g" then "energy production and brain function"
    else if nutrient = "fat_g" then "hormone production and nutrient absorption"
    else "overall health"
  "Your " ++ replaceUnderscores nutrient ++ " intake is " ++ severity ++
    ", which may impact " ++ benefit ++ "."

/-- _get_health_impact (recommendation_engine.py, lines 737-757). -/
def get_health_impact (nutrient severity : String) : String :=
  if nutrient = "protein_g" then
    if severity = "critical" then "Risk of muscle loss and impaired immune function"
    else if severity = "high" then "Reduced muscle protein synthesis and recovery"
    else if severity = "excess" then "Potential kidney strain and dehydration"
    else "May affect overall health and wellness"
  else if nutrient = "fiber_g" then
    if severity = "critical" then "Digestive issues and blood sugar instability"
    else if severity = "high" then "Suboptimal digestive health and satiety"
    else if severity = "excess" then "Potential digestive discomfort and bloating"
    else "May affect overall health and wellness"
  else if nutrient = "calories" then
    if severity = "critical" then "Risk of malnutrition and metabolic slowdown"
    else if severity = "high" then "Energy deficiency and potential muscle loss"
    else if severity = "excess" then "Weight gain and metabolic dysfunction"
    else "May affect overall health and wellness"
  else "May affect overall health and wellness"

/-- _get_food_sources_for_nutrient (recommendation_engine.py, lines 759-773). -/
def get_food_sources_for_nutrient (nutrient : String) : List String :=
  if nutrient = "protein_g" then ["lean meats", "fish", "eggs", "legumes", "dairy", "nuts"]
  else if nutrient = "fiber_g" then ["whole grains", "vegetables", "fruits", "legumes", "nuts"]
  else if nutrient = "calories" then ["healthy fats", "whole grains", "lean proteins", "fruits"]
  else if nutrient = "carbs_g" then ["whole grains", "fruits", "vegetables", "legumes"]
  else if nutrient = "fat_g" then ["avocados", "nuts", "olive oil", "fatty fish", "seeds"]
  else if nutrient = "iron_mg" then ["red meat", "spinach", "lentils", "fortified cereals"]
  else if nutrient = "calcium_mg" then ["dairy products", "leafy greens", "sardines", "almonds"]
  else if nutrient = "vitamin_c_mg" then ["citrus fruits", "bell peppers", "strawberries", "broccoli"]
  else if nutrient = "vitamin_d_mcg" then ["fatty fish", "fortified milk", "egg yolks", "mushrooms"]
  else ["varied whole foods"]

/-- One iteration of the gap-analysis loop (recommendation_engine.py, lines
156-184) for a single nutrient: ratio computation (ratio treated as 0 when the
target is not positive), severity classification, and the emitted
NutrientAdjustment, or none for the continue branch. -/
def gap_adjustment_for (user : User) (nutrient : String) (target current : ℚ) :
    Option NutrientAdjustment :=
  let ratio := if 0 < target then current / target else 0
  match classify_gap_severity ratio with
  | none => none
  | some severity =>
    let gap := target - current
    some
      { nutrient_name := nutrient
        current_intake := current
        recommended_intake := target
        adjustment_amount := |gap|
        adjustment_direction := if 0 < gap then "increase" else "decrease"
        unit := if nutrient = "calories" then "kcal" else "g"
        reason := get_nutrient_gap_reason nutrient ratio user
        health_impact := get_health_impact nutrient severity
        food_sources := get_food_sources_for_nutrient nutrient }

/-- The macros dict of the gap analyzer (recommendation_engine.py, lines
148-154), in insertion order. -/
def macros_of (t : MacroTargets) : List (String × ℚ) :=
  [("calories", t.calories), ("protein_g", t.protein_g), ("carbs_g", t.carbs_g),
   ("fat_g", t.fat_g), ("fiber_g", t.fiber_g)]

/-- The nutrient_adjustments list produced by the gap-analysis loop over the
five macro nutrients. -/
def compute_nutrient_adjustments (user : User) (t : MacroTargets) (intake : Intake) :
    List NutrientAdjustment :=
  (macros_of t).filterMap (fun p => gap_adjustment_for user p.1 p.2 (intake_get intake p.1))

/-- The key function of the min call on line 201: 1 if "critical" occurs in the
lowered reason, else 2. -/
def gap_critical_key (adj : NutrientAdjustment) : Nat :=
  if strContains (lowerStr adj.reason) "critical" then 1 else 2

/-- Python min(list, key=f): the first element attaining the minimal key. -/
def min_by_key (key : NutrientAdjustment → Nat) :
    NutrientAdjustment → List NutrientAdjustment → NutrientAdjustment
  | a, [] => a
  | a, b :: rest => if key b < key a then min_by_key key b rest else min_by_key key a rest

/-- Reading the priority attribute of a NutrientAdjustment, as line 201 of
recommendation_engine.py does.  The NutrientAdjustment schema
(models/recommendation.py, lines 68-81) declares no priority field, and a
pydantic model raises AttributeError when an undeclared attribute is read, so
this access always fails. -/
def nutrient_adjustment_priority_attr (_ : NutrientAdjustment) : Except EngineError Nat :=
  Except.error EngineError.attributeError

/-- The priority expression on line 201: min(adjustments, key=...).priority if
the list is nonempty, else 3.  The nonempty branch always raises. -/
def gap_rec_priority (adjs : List NutrientAdjustment) : Except EngineError Nat :=
  match adjs with
  | [] => Except.ok 3
  | a :: rest => nutrient_adjustment_priority_attr (min_by_key gap_critical_key a rest)

/-- _generate_nutrient_gap_recommendations (recommendation_engine.py, lines
134-208).  When at least one adjustment was produced the construction of the
wrapping Recommendation evaluates the priority expression, which raises; the
error escapes this function (it has no handler of its own). -/
def generate_nutrient_gap_recommendations (user : User) (t : MacroTargets)
    (intake : Intake) : Except EngineError (List Recommendation) :=
  let adjustments := compute_nutrient_adjustments user t intake
  if adjustments.isEmpty then Except.ok []
  else
    match gap_rec_priority adjustments with
    | Except.error e => Except.error e
    | Except.ok prio =>
      Except.ok
        [{ user_id := user.id
           recommendation_type := RecommendationType.nutrient_adjustment
           title := "Nutrition Balance Optimization"
           description := "Adjust your nutrient intake to better meet your daily targets"
           confidence_level := ConfidenceLevel.high
           nutrient_adjustments := adjustments
           model_version := "1.0"
           model_confidence := 0.85
           features_used := ["current_intake", "targets", "user_profile"]
           user_goals := match user.primary_goal with | some g => [g] | none => []
           health_conditions := user.health_conditions.map (fun c => c.name)
           dietary_restrictions := user.dietary_restrictions.map (fun r => r.type)
           priority := prio
           expected_impact :=
             if adjustments.any (fun adj => strContains (lowerStr adj.reason) "critical")
             then "high" else "medium"
           implementation_difficulty := "easy"
           time_horizon := "immediate" }]

/-- A parsed suggestion dict returned by the external generator
(openai_service.generate_meal_suggestions): name, ingredient names,
estimated_nutrition values and rationale.  Keys that the engine reads with
dict.get defaults are embedded as always-present fields holding the defaulted
value. -/
structure AiSuggestion where
  name : String
  ingredients : List String := []
  calories : ℚ := 0
  protein_g : ℚ := 0
  carbs_g : ℚ := 0
  fat_g : ℚ := 0
  rationale : String
deriving Repr, DecidableEq

/-- The fixed allergen-group to keyword mapping of _check_allergens
(recommendation_engine.py, lines 797-806), in insertion order. -/
def common_allergens : List (String × List String) :=
  [("milk", ["milk", "dairy", "cheese", "butter", "cream"]),
   ("eggs", ["egg", "eggs"]),
   ("fish", ["fish", "salmon", "tuna", "cod"]),
   ("shellfish", ["shrimp", "crab", "lobster", "shellfish"]),
   ("tree nuts", ["almond", "walnut", "pecan", "cashew", "pistachio"]),
   ("peanuts", ["peanut", "peanuts"]),
   ("wheat", ["wheat", "flour", "bread", "pasta"]),
   ("soy", ["soy", "tofu", "soybean", "edamame"])]

/-- The combined lowered name-plus-ingredient text screened by
_check_allergens (recommendation_engine.py, lines 792-795). -/
def suggestion_text (s : AiSuggestion) : String :=
  lowerStr s.name ++ " " ++ String.intercalate " " (s.ingredients.map lowerStr)

/-- _check_allergens (recommendation_engine.py, lines 788-815): the nested
append loops over user allergies and allergen groups, embedded as a flatMap
over allergies of a filterMap over the group table. -/
def check_allergens (s : AiSuggestion) (user_allergies : List String) : List String :=
  user_allergies.flatMap (fun allergy =>
    let allergy_lower := lowerStr allergy
    common_allergens.filterMap (fun p =>
      if strContains p.1 allergy_lower ||
          p.2.any (fun keyword => strContains allergy_lower keyword) then
        if p.2.any (fun keyword => strContains (suggestion_text s) keyword) then
          some ("May contain " ++ p.1)
        else none
      else none))

/-- The user_profile summary dict sent to the external generator
(recommendation_engine.py, lines 235-241 and 329-335). -/
structure UserProfileSummary where
  age : Option Int
  gender : Option String
  activity_level : Option String
  primary_goal : Option String
  health_conditions : List String
deriving Repr, DecidableEq

/-- One request to the external generator: the arguments of
openai_service.generate_meal_suggestions. -/
structure SuggestionRequest where
  user_profile : UserProfileSummary
  nutrition_targets : List (String × ℚ)
  dietary_restrictions : List String
  meal_type : String
deriving Repr, DecidableEq

/-- The environment of one generation pass: the user, the stored or freshly
computed nutrition profile, the current-intake dict, the optional meal-type
argument, the wall clock hour, the count of food logs in the trailing three
days, and the external suggestion generator (which may fail). -/
structure Env where
  user : User
  profile : NutritionProfile
  current_intake : Intake
  meal_type_arg : Option String := none
  current_hour : Nat
  recent_log_count : Nat
  suggestion_generator : SuggestionRequest → Except Unit (List AiSuggestion)

/-- getattr(macro_targets, nutrient) for the nutrient names the engine uses. -/
def macro_getattr (t : MacroTargets) (nutrient : String) : ℚ :=
  if nutrient = "calories" then t.calories
  else if nutrient = "protein_g" then t.protein_g
  else if nutrient = "carbs_g" then t.carbs_g
  else if nutrient = "fat_g" then t.fat_g
  else if nutrient = "fiber_g" then t.fiber_g
  else 0

/-- The deficit-nutrient scan of _generate_food_suggestions
(recommendation_engine.py, lines 225-229): protein or fiber below 80 percent
of target. -/
def deficit_nutrients (t : MacroTargets) (intake : Intake) : List String :=
  ["protein_g", "fiber_g"].filter
    (fun n => intake_get intake n < macro_getattr t n * 0.8)

/-- _determine_next_meal (recommendation_engine.py, lines 775-786). -/
def determine_next_meal (current_hour : Nat) : String :=
  if 5 ≤ current_hour ∧ current_hour < 11 then "breakfast"
  else if 11 ≤ current_hour ∧ current_hour < 15 then "lunch"
  else if 15 ≤ current_hour ∧ current_hour < 18 then "snack"
  else "dinner"

/-- The target meal type of the food-suggestion pass: the caller argument when
truthy (Python or-chaining treats an empty string as falsy), else derived from
the wall clock. -/
def target_meal_type (env : Env) : String :=
  match env.meal_type_arg with
  | some m => if m = "" then determine_next_meal env.current_hour else m
  | none => determine_next_meal env.current_hour

/-- The user_profile summary dict built by the food-suggestion and meal-plan
passes. -/
def user_profile_summary (user : User) : UserProfileSummary :=
  { age := user.age
    gender := user.gender
    activity_level := user.activity_level
    primary_goal := user.primary_goal
    health_conditions := user.health_conditions.map (fun c => c.name) }

/-- The remaining-need nutrition targets of the food-suggestion pass
(recommendation_engine.py, lines 243-250): max(0, target minus current) scaled
by the 30 percent this-meal factor (the calories entry applies the factor to
the clamped remainder exactly as the source does). -/
def food_suggestion_targets (t : MacroTargets) (intake : Intake) : List (String × ℚ) :=
  [("calories", max 0 (t.calories - intake_get intake "calories") * 0.3),
   ("protein_g", max 0 (t.protein_g - intake_get intake "protein_g") * 0.3),
   ("carbs_g", max 0 (t.carbs_g - intake_get intake "carbs_g") * 0.3),
   ("fat_g", max 0 (t.fat_g - intake_get intake "fat_g") * 0.3)]

/-- Conversion of one AI suggestion into a FoodSuggestion by the
food-suggestion pass (recommendation_engine.py, lines 266-284). -/
def ai_to_food_suggestion (s : AiSuggestion) (meal_type : String)
    (deficits : List String) (allergies : List String) : FoodSuggestion :=
  { fdc_id := 0
    food_name := s.name
    serving_size := 1
    serving_unit := "serving"
    calories := s.calories
    protein_g := s.protein_g
    carbs_g := s.carbs_g
    fat_g := s.fat_g
    reason := s.rationale
    meal_type := some meal_type
    priority_score := 0.8
    nutritional_benefits := deficits
    matches_dietary_restrictions := true
    allergen_warnings := check_allergens s allergies }

/-- _generate_food_suggestions (recommendation_engine.py, lines 210-310).  The
function has its own try/except, so a failing generator call is absorbed into
an empty result; an empty suggestion list likewise produces nothing. -/
def generate_food_suggestions (env : Env) : List Recommendation :=
  let t := env.profile.macro_targets
  let deficits := deficit_nutrients t env.current_intake
  if deficits.isEmpty then []
  else
    let restrictions := env.user.dietary_restrictions.map (fun r => r.type)
    let meal_type := target_meal_type env
    match env.suggestion_generator
        { user_profile := user_profile_summary env.user
          nutrition_targets := food_suggestion_targets t env.current_intake
          dietary_restrictions := restrictions
          meal_type := meal_type } with
    | Except.error _ => []
    | Except.ok sugs =>
      if sugs.isEmpty then []
      else
        [{ user_id := env.user.id
           recommendation_type := RecommendationType.food_suggestion
           title := "Smart " ++ pyTitle meal_type ++ " Suggestions"
           description := "Personalized food recommendations to help you meet your " ++
             String.intercalate ", " deficits ++ " goals"
           confidence_level := ConfidenceLevel.medium
           food_suggestions := (sugs.take 3).map
             (fun s => ai_to_food_suggestion s meal_type deficits env.user.allergies)
           model_version := "1.0"
           model_confidence := 0.75
           features_used := ["nutrition_gaps", "user_preferences", "ai_analysis"]
           user_goals := match env.user.primary_goal with | some g => [g] | none => []
           health_conditions := env.user.health_conditions.map (fun c => c.name)
           dietary_restrictions := restrictions
           priority := 3
           expected_impact := "medium"
           implementation_difficulty := "easy"
           time_horizon := "immediate" }]

/-- Conversion of one AI suggestion into a FoodSuggestion by the meal-plan
pass (recommendation_engine.py, lines 362-377). -/
def meal_plan_food_suggestion (s : AiSuggestion) (meal_type : String) : FoodSuggestion :=
  { fdc_id := 0
    food_name := s.name
    serving_size := 1
    serving_unit := "serving"
    calories := s.calories
    protein_g := s.protein_g
    carbs_g := s.carbs_g
    fat_g := s.fat_g
    reason := s.rationale
    meal_type := some meal_type
    priority_score := 0.8
    nutritional_benefits := []
    matches_dietary_restrictions := true
    allergen_warnings := [] }

/-- The per-slot loop of the meal-plan pass (recommendation_engine.py, lines
342-379): one generator call per meal slot with the distributed targets,
keeping at most one suggestion per slot; a failing call raises out of the loop
(it is caught by the pass-level handler). -/
def meal_plan_slots (env : Env) : List (String × ℚ) →
    Except Unit (List (String × List FoodSuggestion))
  | [] => Except.ok []
  | (meal_type, pct) :: rest =>
    let t := env.profile.macro_targets
    match env.suggestion_generator
        { user_profile := user_profile_summary env.user
          nutrition_targets :=
            [("calories", t.calories * pct), ("protein_g", t.protein_g * pct),
             ("carbs_g", t.carbs_g * pct), ("fat_g", t.fat_g * pct)]
          dietary_restrictions := env.user.dietary_restrictions.map (fun r => r.type)
          meal_type := meal_type } with
    | Except.error e => Except.error e
    | Except.ok sugs =>
      match meal_plan_slots env rest with
      | Except.error e => Except.error e
      | Except.ok acc =>
        Except.ok
          ((if sugs.isEmpty then []
            else [(meal_type, (sugs.take 1).map (fun s => meal_plan_food_suggestion s meal_type))])
            ++ acc)

/-- _generate_meal_plan_recommendations (recommendation_engine.py, lines
312-419): gated by fewer than five food logs in the trailing three days; its
try/except turns any slot failure into an empty result; the declared plan
totals are the full-day macro targets. -/
def generate_meal_plan_recommendations (env : Env) : List Recommendation :=
  if env.recent_log_count < 5 then
    match meal_plan_slots env env.profile.meal_distribution with
    | Except.error _ => []
    | Except.ok daily_meals =>
      if daily_meals.isEmpty then []
      else
        let t := env.profile.macro_targets
        [{ user_id := env.user.id
           recommendation_type := RecommendationType.meal_plan
           title := "Personalized Daily Meal Plan"
           description := "A complete meal plan designed to meet your nutritional goals and preferences"
           confidence_level := ConfidenceLevel.medium
           meal_plan := some
             { meals := daily_meals
               total_calories := t.calories
               total_protein_g := t.protein_g
               total_carbs_g := t.carbs_g
               total_fat_g := t.fat_g
               total_fiber_g := t.fiber_g
               plan_type := "daily"
               difficulty_level := "easy"
               prep_time_minutes := some 45
               cost_estimate := some 25 }
           model_version := "1.0"
           model_confidence := 0.70
           features_used := ["nutrition_targets", "user_preferences", "meal_distribution"]
           user_goals := match env.user.primary_goal with | some g => [g] | none => []
           health_conditions := env.user.health_conditions.map (fun c => c.name)
           dietary_restrictions := env.user.dietary_restrictions.map (fun r => r.type)
           priority := 4
           expected_impact := "high"
           implementation_difficulty := "medium"
           time_horizon := "short_term" }]
  else []

/-- The fiber adjustment of the diabetes pack (recommendation_engine.py,
lines 459-471). -/
def diabetes_fiber_adjustment (fiber : ℚ) : NutrientAdjustment :=
  { nutrient_name := "fiber_g"
    current_intake := fiber
    recommended_intake := 30
    adjustment_amount := 30 - fiber
    adjustment_direction := "increase"
    unit := "g"
    reason := "Higher fiber intake helps regulate blood sugar levels"
    health_impact := "Improved glucose control and insulin sensitivity"
    food_sources := ["whole grains", "legumes", "vegetables", "fruits with skin"]
    supplement_suggestion := some "Consider a fiber supplement if dietary intake is insufficient" }

/-- _diabetes_recommendations (recommendation_engine.py, lines 449-493); the
carbs intake is read by the source but never used. -/
def diabetes_recommendations (user : User) (intake : Intake) : List Recommendation :=
  let fiber := intake_get intake "fiber_g"
  let adjustments := if fiber < 25 then [diabetes_fiber_adjustment fiber] else []
  if adjustments.isEmpty then []
  else
    [{ user_id := user.id
       recommendation_type := RecommendationType.health_optimization
       title := "Diabetes Management Nutrition"
       description := "Optimize your nutrition to better manage blood sugar levels"
       confidence_level := ConfidenceLevel.high
       nutrient_adjustments := adjustments
       model_version := "1.0"
       model_confidence := 0.90
       features_used := ["health_conditions", "current_intake", "clinical_guidelines"]
       user_goals := match user.primary_goal with | some g => [g] | none => []
       health_conditions := ["diabetes"]
       priority := 2
       expected_impact := "high"
       implementation_difficulty := "medium"
       time_horizon := "long_term" }]

/-- The sodium adjustment of the hypertension pack (recommendation_engine.py,
lines 504-516). -/
def hypertension_sodium_adjustment (sodium : ℚ) : NutrientAdjustment :=
  { nutrient_name := "sodium_mg"
    current_intake := sodium
    recommended_intake := 1500
    adjustment_amount := sodium - 1500
    adjustment_direction := "decrease"
    unit := "mg"
    reason := "Reducing sodium intake helps lower blood pressure"
    health_impact := "Reduced risk of cardiovascular events"
    food_sources := ["fresh fruits", "vegetables", "unsalted nuts", "herbs and spices"]
    supplement_suggestion := some "Focus on whole foods rather than supplements" }

/-- The potassium adjustment of the hypertension pack
(recommendation_engine.py, lines 518-530). -/
def hypertension_potassium_adjustment (potassium : ℚ) : NutrientAdjustment :=
  { nutrient_name := "potassium_mg"
    current_intake := potassium
    recommended_intake := 4700
    adjustment_amount := 4700 - potassium
    adjustment_direction := "increase"
    unit := "mg"
    reason := "Adequate potassium helps counteract sodium\x27s effects on blood pressure"
    health_impact := "Better blood pressure control"
    food_sources := ["bananas", "oranges", "potatoes", "spinach", "beans"]
    supplement_suggestion := some "Consult healthcare provider before potassium supplements" }

/-- _hypertension_recommendations (recommendation_engine.py, lines 495-552). -/
def hypertension_recommendations (user : User) (intake : Intake) : List Recommendation :=
  let sodium := intake_get intake "sodium_mg"
  let potassium := intake_get intake "potassium_mg"
  let adjustments :=
    (if 2300 < sodium then [hypertension_sodium_adjustment sodium] else []) ++
    (if potassium < 3500 then [hypertension_potassium_adjustment potassium] else [])
  if adjustments.isEmpty then []
  else
    [{ user_id := user.id
       recommendation_type := RecommendationType.health_optimization
       title := "Blood Pressure Management"
       description := "Nutritional strategies to help manage blood pressure"
       confidence_level := ConfidenceLevel.high
       nutrient_adjustments := adjustments
       model_version := "1.0"
       model_confidence := 0.88
       features_used := ["health_conditions", "current_intake", "clinical_guidelines"]
       user_goals := match user.primary_goal with | some g => [g] | none => []
       health_conditions := ["hypertension"]
       priority := 2
       expected_impact := "high"
       implementation_difficulty := "medium"
       time_horizon := "long_term" }]

/-- The fiber adjustment of the heart-health pack (recommendation_engine.py,
lines 563-575). -/
def heart_fiber_adjustment (fiber : ℚ) : NutrientAdjustment :=
  { nutrient_name := "fiber_g"
    current_intake := fiber
    recommended_intake := 30
    adjustment_amount := 30 - fiber
    adjustment_direction := "increase"
    unit := "g"
    reason := "Soluble fiber helps reduce cholesterol levels"
    health_impact := "Improved cardiovascular health and cholesterol profile"
    food_sources := ["oats", "beans", "apples", "barley", "psyllium"]
    supplement_suggestion := some "Consider psyllium husk supplement" }

/-- _heart_health_recommendations (recommendation_engine.py, lines 554-597). -/
def heart_health_recommendations (user : User) (intake : Intake) : List Recommendation :=
  let fiber := intake_get intake "fiber_g"
  let adjustments := if fiber < 25 then [heart_fiber_adjustment fiber] else []
  if adjustments.isEmpty then []
  else
    [{ user_id := user.id
       recommendation_type := RecommendationType.health_optimization
       title := "Heart Health Optimization"
       description := "Nutrition recommendations to support cardiovascular health"
       confidence_level := ConfidenceLevel.high
       nutrient_adjustments := adjustments
       model_version := "1.0"
       model_confidence := 0.85
       features_used := ["health_conditions", "current_intake", "clinical_guidelines"]
       user_goals := match user.primary_goal with | some g => [g] | none => []
       health_conditions := ["heart_disease"]
       priority := 2
       expected_impact := "high"
       implementation_difficulty := "medium"
       time_horizon := "long_term" }]

/-- The iron adjustment of the anemia pack (recommendation_engine.py, lines
608-620). -/
def anemia_iron_adjustment (iron : ℚ) : NutrientAdjustment :=
  { nutrient_name := "iron_mg"
    current_intake := iron
    recommended_intake := 18
    adjustment_amount := 18 - iron
    adjustment_direction := "increase"
    unit := "mg"
    reason := "Adequate iron intake is essential for red blood cell production"
    health_impact := "Improved energy levels and oxygen transport"
    food_sources := ["lean red meat", "spinach", "lentils", "fortified cereals"]
    supplement_suggestion := some "Consider iron supplement with healthcare provider guidance" }

/-- The vitamin C adjustment of the anemia pack (recommendation_engine.py,
lines 622-634). -/
def anemia_vitamin_c_adjustment (vitamin_c : ℚ) : NutrientAdjustment :=
  { nutrient_name := "vitamin_c_mg"
    current_intake := vitamin_c
    recommended_intake := 90
    adjustment_amount := 90 - vitamin_c
    adjustment_direction := "increase"
    unit := "mg"
    reason := "Vitamin C enhances iron absorption"
    health_impact := "Better iron utilization and absorption"
    food_sources := ["citrus fruits", "bell peppers", "strawberries", "broccoli"]
    supplement_suggestion := some "Vitamin C supplement can be taken with iron-rich meals" }

/-- _anemia_recommendations (recommendation_engine.py, lines 599-656). -/
def anemia_recommendations (user : User) (intake : Intake) : List Recommendation :=
  let iron := intake_get intake "iron_mg"
  let vitamin_c := intake_get intake "vitamin_c_mg"
  let adjustments :=
    (if iron < 15 then [anemia_iron_adjustment iron] else []) ++
    (if vitamin_c < 75 then [anemia_vitamin_c_adjustment vitamin_c] else [])
  if adjustments.isEmpty then []
  else
    [{ user_id := user.id
       recommendation_type := RecommendationType.health_optimization
       title := "Anemia Management Nutrition"
       description := "Nutritional support for managing anemia and improving iron status"
       confidence_level := ConfidenceLevel.high
       nutrient_adjustments := adjustments
       model_version := "1.0"
       model_confidence := 0.92
       features_used := ["health_conditions", "current_intake", "clinical_guidelines"]
       user_goals := match user.primary_goal with | some g => [g] | none => []
       health_conditions := ["anemia"]
       priority := 2
       expected_impact := "high"
       implementation_difficulty := "easy"
       time_horizon := "medium_term" }]

/-- The calcium adjustment of the bone-health pack (recommendation_engine.py,
lines 667-679). -/
def bone_calcium_adjustment (calcium : ℚ) : NutrientAdjustment :=
  { nutrient_name := "calcium_mg"
    current_intake := calcium
    recommended_intake := 1200
    adjustment_amount := 1200 - calcium
    adjustment_direction := "increase"
    unit := "mg"
    reason := "Adequate calcium is essential for bone strength and density"
    health_impact := "Reduced risk of fractures and bone loss"
    food_sources := ["dairy products", "leafy greens", "sardines", "almonds"]
    supplement_suggestion := some "Calcium citrate supplement if dietary intake is insufficient" }

/-- The vitamin D adjustment of the bone-health pack
(recommendation_engine.py, lines 681-693). -/
def bone_vitamin_d_adjustment (vitamin_d : ℚ) : NutrientAdjustment :=
  { nutrient_name := "vitamin_d_mcg"
    current_intake := vitamin_d
    recommended_intake := 20
    adjustment_amount := 20 - vitamin_d
    adjustment_direction := "increase"
    unit := "mcg"
    reason := "Vitamin D is crucial for calcium absorption and bone health"
    health_impact := "Better calcium utilization and bone mineralization"
    food_sources := ["fatty fish", "fortified milk", "egg yolks", "mushrooms"]
    supplement_suggestion := some "Vitamin D3 supplement recommended, especially in winter" }

/-- _bone_health_recommendations (recommendation_engine.py, lines 658-715). -/
def bone_health_recommendations (user : User) (intake : Intake) : List Recommendation :=
  let calcium := intake_get intake "calcium_mg"
  let vitamin_d := intake_get intake "vitamin_d_mcg"
  let adjustments :=
    (if calcium < 1000 then [bone_calcium_adjustment calcium] else []) ++
    (if vitamin_d < 15 then [bone_vitamin_d_adjustment vitamin_d] else [])
  if adjustments.isEmpty then []
  else
    [{ user_id := user.id
       recommendation_type := RecommendationType.health_optimization
       title := "Bone Health Support"
       description := "Nutritional strategies to support bone health and prevent osteoporosis"
       confidence_level := ConfidenceLevel.high
       nutrient_adjustments := adjustments
       model_version := "1.0"
       model_confidence := 0.87
       features_used := ["health_conditions", "current_intake", "clinical_guidelines"]
       user_goals := match user.primary_goal with | some g => [g] | none => []
       health_conditions := ["osteoporosis"]
       priority := 2
       expected_impact := "high"
       implementation_difficulty := "easy"
       time_horizon := "long_term" }]

/-- The condition dispatch of _generate_health_optimization_recommendations
(recommendation_engine.py, lines 421-447): case-insensitive substring match of
the lowered condition name against the fixed keyword chain; the elif chain
sends a condition to at most one pack.  The pass-level try/except never fires
because every pack is total. -/
def health_pack_for_condition (user : User) (intake : Intake)
    (condition : HealthCondition) : List Recommendation :=
  let condition_name := lowerStr condition.name
  if strContains condition_name "diabetes" then
    diabetes_recommendations user intake
  else if strContains condition_name "hypertension" ||
      strContains condition_name "blood pressure" then
    hypertension_recommendations user intake
  else if strContains condition_name "heart" ||
      strContains condition_name "cardiovascular" then
    heart_health_recommendations user intake
  else if strContains condition_name "anemia" then
    anemia_recommendations user intake
  else if strContains condition_name "osteoporosis" then
    bone_health_recommendations user intake
  else []

/-- _generate_health_optimization_recommendations: the loop over the user
health conditions, extending one shared list. -/
def generate_health_optimization_recommendations (user : User) (intake : Intake) :
    List Recommendation :=
  user.health_conditions.flatMap (fun c => health_pack_for_condition user intake c)

/-- The sort key comparison of the aggregator (recommendation_engine.py, line
82): ascending by (priority, -model_confidence). -/
def rec_le (a b : Recommendation) : Bool :=
  decide (a.priority < b.priority ∨
    (a.priority = b.priority ∧ b.model_confidence ≤ a.model_confidence))

/-- The body of generate_comprehensive_recommendations
(recommendation_engine.py, lines 65-85) as it executes inside the top-level
try: run the four sub-generators in order (only the gap analyzer can raise;
the other three absorb their failures internally), concatenate, sort by
(priority, -model_confidence) and keep the top ten. -/
def generate_comprehensive_recommendations_body (env : Env) :
    Except EngineError (List Recommendation) :=
  match generate_nutrient_gap_recommendations env.user env.profile.macro_targets
      env.current_intake with
  | Except.error e => Except.error e
  | Except.ok gap =>
    let food := generate_food_suggestions env
    let meal := generate_meal_plan_recommendations env
    let health := generate_health_optimization_recommendations env.user env.current_intake
    Except.ok (((gap ++ food ++ meal ++ health).mergeSort rec_le).take 10)

/-- generate_comprehensive_recommendations (recommendation_engine.py, lines
48-89): the top-level try/except turns any escaped exception into an empty
result list. -/
def generate_comprehensive_recommendations (env : Env) : List Recommendation :=
  match generate_comprehensive_recommendations_body env with
  | Except.ok recs => recs
  | Except.error _ => []

/-- Validation failures at the feedback-submission boundary. -/
inductive FeedbackRejection where
  | ratingOutOfRange
deriving Repr, DecidableEq

/-- The request body of the feedback endpoint, before boundary validation. -/
structure FeedbackPayload where
  recommendation_id : String
  is_accepted : Bool
  rating : Option Int := none
  feedback : Option String := none
deriving Repr, DecidableEq

/-- The pydantic parse of RecommendationFeedback
(models/recommendation.py, lines 176-182): rating carries Field(None, ge=1,
le=5) so an out-of-range rating is rejected with a 422 before any handler code
runs; the feedback string carries no constraint at all.  (The helper
validate_recommendation_feedback in utils/validators.py, which also checks a
1000-character feedback limit, is never called anywhere in the repository.) -/
def parse_recommendation_feedback (p : FeedbackPayload) :
    Except FeedbackRejection FeedbackPayload :=
  match p.rating with
  | some r => if 1 ≤ r ∧ r ≤ 5 then Except.ok p else Except.error FeedbackRejection.ratingOutOfRange
  | none => Except.ok p

/-- validate_recommendation_feedback (utils/validators.py, lines 209-228),
embedded for reference: it would flag an out-of-range rating and a feedback
text longer than 1000 characters, but no code in the repository invokes it. -/
def validate_recommendation_feedback (rating : Option Int) (feedback : Option String) :
    List String :=
  (match rating with
   | some r => if 1 ≤ r ∧ r ≤ 5 then [] else ["Rating must be between 1 and 5"]
   | none => []) ++
  (match feedback with
   | some s => if 1000 < s.length then ["Feedback text cannot exceed 1000 characters"] else []
   | none => [])

/-- update_recommendation_feedback (recommendation_engine.py, lines 828-855):
the state transition applied to the stored recommendation.  Python truthiness
guards the optional fields: a rating of 0 and an empty feedback string are
falsy and leave the stored field untouched. -/
def update_recommendation_feedback (rec : Recommendation) (is_accepted : Bool)
    (rating : Option Int) (feedback : Option String) : Recommendation :=
  let rec1 := { rec with is_viewed := true, is_accepted := is_accepted }
  let rec2 :=
    match rating with
    | some r => if r ≠ 0 then { rec1 with user_rating := some r } else rec1
    | none => rec1
  match feedback with
  | some s => if s ≠ "" then { rec2 with user_feedback := some s } else rec2
  | none => rec2

/-- The feedback endpoint (api/v1/endpoints/recommendations.py, lines
180-204): the payload is parsed at the boundary; a rejected payload leaves the
stored recommendation untouched, an accepted one is handed to
update_recommendation_feedback. -/
def submit_feedback (stored : Recommendation) (p : FeedbackPayload) :
    Except FeedbackRejection Recommendation :=
  match parse_recommendation_feedback p with
  | Except.error e => Except.error e
  | Except.ok q => Except.ok (update_recommendation_feedback stored q.is_accepted q.rating q.feedback)


theorem gap_adjustment_eq_of_critical (user : User) (nutrient : String)
    (target current : ℚ) (ht : 0 < target) (h : current / target < 0.5) :
    gap_adjustment_for user nutrient target current = some
      { nutrient_name := nutrient
        current_intake := current
        recommended_intake := target
        adjustment_amount := |target - current|
        adjustment_direction := if 0 < target - current then "increase" else "decrease"
        unit := if nutrient = "calories" then "kcal" else "g"
        reason := get_nutrient_gap_reason nutrient (current / target) user
        health_impact := get_health_impact nutrient "critical"
        food_sources := get_food_sources_for_nutrient nutrient } := by
  have hclass : classify_gap_severity (current / target) = some "critical" := by
    simp [classify_gap_severity, critical_threshold, h]
  simp only [gap_adjustment_for, if_pos ht, hclass]

theorem gap_adjustment_eq_of_high (user : User) (nutrient : String)
    (target current : ℚ) (ht : 0 < target) (h1 : 0.5 ≤ current / target)
    (h2 : current / target < 0.8) :
    gap_adjustment_for user nutrient target current = some
      { nutrient_name := nutrient
        current_intake := current
        recommended_intake := target
        adjustment_amount := |target - current|
        adjustment_direction := if 0 < target - current then "increase" else "decrease"
        unit := if nutrient = "calories" then "kcal" else "g"
        reason := get_nutrient_gap_reason nutrient (current / target) user
        health_impact := get_health_impact nutrient "high"
        food_sources := get_food_sources_for_nutrient nutrient } := by
  have hclass : classify_gap_severity (current / target) = some "high" := by
    simp [classify_gap_severity, critical_threshold, protein_deficit_threshold,
      not_lt.mpr h1, h2]
  simp only [gap_adjustment_for, if_pos ht, hclass]

theorem gap_adjustment_eq_of_excess (user : User) (nutrient : String)
    (target current : ℚ) (ht : 0 < target) (h : 1.5 < current / target) :
    gap_adjustment_for user nutrient target current = some
      { nutrient_name := nutrient
        current_intake := current
        recommended_intake := target
        adjustment_amount := |target - current|
        adjustment_direction := if 0 < target - current then "increase" else "decrease"
        unit := if nutrient = "calories" then "kcal" else "g"
        reason := get_nutrient_gap_reason nutrient (current / target) user
        health_impact := get_health_impact nutrient "excess"
        food_sources := get_food_sources_for_nutrient nutrient } := by
  have h1 : ¬ (current / target < 0.5) := by norm_num; linarith
  have h2 : ¬ (current / target < 0.8) := by norm_num; linarith
  have hclass : classify_gap_severity (current / target) = some "excess" := by
    simp [classify_gap_severity, critical_threshold, protein_deficit_threshold,
      excess_threshold, h1, h2, h]
  simp only [gap_adjustment_for, if_pos ht, hclass]

theorem gap_adjustment_eq_none (user : User) (nutrient : String)
    (target current : ℚ) (ht : 0 < target) (h1 : 0.8 ≤ current / target)
    (h2 : current / target ≤ 1.5) :
    gap_adjustment_for user nutrient target current = none := by
  have ha : ¬ (current / target < 0.5) := by norm_num; linarith
  have hb : ¬ (current / target < 0.8) := not_lt.mpr h1
  have hc : ¬ (current / target > 1.5) := not_lt.mpr h2
  have hclass : classify_gap_severity (current / target) = none := by
    simp [classify_gap_severity, critical_threshold, protein_deficit_threshold,
      excess_threshold, ha, hb, hc]
  simp only [gap_adjustment_for, if_pos ht, hclass]

theorem gap_recs_error_of_adjustments_ne_nil (user : User) (t : MacroTargets)
    (intake : Intake) (h : compute_nutrient_adjustments user t intake ≠ []) :
    generate_nutrient_gap_recommendations user t intake =
      Except.error EngineError.attributeError := by
  unfold generate_nutrient_gap_recommendations
  cases hadj : compute_nutrient_adjustments user t intake with
  | nil => exact absurd hadj h
  | cons a rest =>
    simp [hadj, gap_rec_priority, nutrient_adjustment_priority_attr]

/-- A user with no health conditions, restrictions or allergies. -/
def userA : User := { id := "user-a" }

/-- Scenario A targets: protein target 100 g, the other macros chosen inside
the acceptable band. -/
def macroTargetsA : MacroTargets :=
  { calories := 2000, protein_g := 100, carbs_g := 250, fat_g := 70, fiber_g := 30 }

/-- Scenario A intake: protein 40 g (ratio 0.4), every other macro exactly on
target. -/
def intakeA : Intake :=
  [("calories", 2000), ("protein_g", 40), ("carbs_g", 250), ("fat_g", 70), ("fiber_g", 30)]

/-- Scenario A environment: enough recent logs to skip the meal-plan pass and
an external generator that returns no suggestions. -/
def envA : Env :=
  { user := userA
    profile := { user_id := "user-a", macro_targets := macroTargetsA }
    current_intake := intakeA
    current_hour := 12
    recent_log_count := 10
    suggestion_generator := fun _ => Except.ok [] }

theorem scenarioA_adjustments :
    compute_nutrient_adjustments userA macroTargetsA intakeA =
      [{ nutrient_name := "protein_g"
         current_intake := 40
         recommended_intake := 100
         adjustment_amount := 60
         adjustment_direction := "increase"
         unit := "g"
         reason := get_nutrient_gap_reason "protein_g" (40 / 100) userA
         health_impact := get_health_impact "protein_g" "critical"
         food_sources := get_food_sources_for_nutrient "protein_g" }] := by
  have i1 : intake_get intakeA "calories" = 2000 := rfl
  have i2 : intake_get intakeA "protein_g" = 40 := rfl
  have i3 : intake_get intakeA "carbs_g" = 250 := rfl
  have i4 : intake_get intakeA "fat_g" = 70 := rfl
  have i5 : intake_get intakeA "fiber_g" = 30 := rfl
  have h1 : gap_adjustment_for userA "calories" 2000 2000 = none :=
    gap_adjustment_eq_none userA "calories" 2000 2000 (by norm_num) (by norm_num) (by norm_num)
  have h2 := gap_adjustment_eq_of_critical userA "protein_g" 100 40 (by norm_num) (by norm_num)
  have h3 : gap_adjustment_for userA "carbs_g" 250 250 = none :=
    gap_adjustment_eq_none userA "carbs_g" 250 250 (by norm_num) (by norm_num) (by norm_num)
  have h4 : gap_adjustment_for userA "fat_g" 70 70 = none :=
    gap_adjustment_eq_none userA "fat_g" 70 70 (by norm_num) (by norm_num) (by norm_num)
  have h5 : gap_adjustment_for userA "fiber_g" 30 30 = none :=
    gap_adjustment_eq_none userA "fiber_g" 30 30 (by norm_num) (by norm_num) (by norm_num)
  simp only [compute_nutrient_adjustments, macros_of, macroTargetsA,
    List.filterMap_cons, List.filterMap_nil, i1, i2, i3, i4, i5, h1, h2, h3, h4, h5]
  norm_num
  intro h
  exact absurd h (by decide)

/-- C1: scenario A (protein target 100 g, current protein intake 40 g) does
compute the claimed NutrientAdjustment inside the gap analyzer, but
constructing the wrapping Recommendation reads the nonexistent priority
attribute of a NutrientAdjustment, the AttributeError reaches the top-level
handler, and generate_comprehensive_recommendations returns the empty list
instead of a list containing the nutrient_adjustment Recommendation. -/
theorem c1_scenarioA_adjustment_computed_but_generation_empty :
    (compute_nutrient_adjustments userA macroTargetsA intakeA).map
        (fun a => (a.nutrient_name, a.current_intake, a.recommended_intake,
                   a.adjustment_amount, a.adjustment_direction))
      = [("protein_g", 40, 100, 60, "increase")] ∧
    generate_comprehensive_recommendations envA = [] := by
  constructor
  · rw [scenarioA_adjustments]
    simp
  · have h : compute_nutrient_adjustments envA.user envA.profile.macro_targets
        envA.current_intake ≠ [] := by
      show compute_nutrient_adjustments userA macroTargetsA intakeA ≠ []
      rw [scenarioA_adjustments]
      simp
    have he := gap_recs_error_of_adjustments_ne_nil envA.user envA.profile.macro_targets
        envA.current_intake h
    unfold generate_comprehensive_recommendations generate_comprehensive_recommendations_body
    rw [he]

/-- C2: with at least one adjustment produced (scenario A yields one critical
protein adjustment), the Nutrient Gap Analyzer does not wrap the adjustments
into a Recommendation at all: evaluating the priority field of the wrapper
raises AttributeError, so the claimed single nutrient_adjustment
Recommendation with confidence high, model_confidence 0.85 and the
critical-based priority is never constructed. -/
theorem c2_wrapper_priority_read_fails :
    compute_nutrient_adjustments userA macroTargetsA intakeA ≠ [] ∧
    generate_nutrient_gap_recommendations userA macroTargetsA intakeA =
      Except.error EngineError.attributeError := by
  have h : compute_nutrient_adjustments userA macroTargetsA intakeA ≠ [] := by
    rw [scenarioA_adjustments]
    simp
  exact ⟨h, gap_recs_error_of_adjustments_ne_nil userA macroTargetsA intakeA h⟩

/-- C4: whenever the gap-analysis loop flags at least one macro nutrient, the
whole generation pass returns the empty list: the wrapping Recommendation
reads a priority attribute NutrientAdjustment does not define, the
AttributeError propagates out of the gap sub-generator, and the top-level
handler of generate_comprehensive_recommendations swallows it into an empty
result. -/
theorem c4_flagged_nutrient_empties_generation (env : Env)
    (h : compute_nutrient_adjustments env.user env.profile.macro_targets
        env.current_intake ≠ []) :
    generate_comprehensive_recommendations env = [] := by
  have he := gap_recs_error_of_adjustments_ne_nil env.user env.profile.macro_targets
      env.current_intake h
  unfold generate_comprehensive_recommendations generate_comprehensive_recommendations_body
  rw [he]

theorem c4_witness :
    compute_nutrient_adjustments envA.user envA.profile.macro_targets
        envA.current_intake ≠ [] ∧
    generate_comprehensive_recommendations envA = [] := by
  have h : compute_nutrient_adjustments envA.user envA.profile.macro_targets
      envA.current_intake ≠ [] := by
    show compute_nutrient_adjustments userA macroTargetsA intakeA ≠ []
    rw [scenarioA_adjustments]
    simp
  exact ⟨h, c4_flagged_nutrient_empties_generation envA h⟩

/-- Sub-positivity of the gap decides the emitted direction string. -/
theorem gap_direction_iff (target current : ℚ) :
    ((if 0 < target - current then "increase" else "decrease") = "increase" ↔
      current < target) := by
  by_cases h : 0 < target - current
  · rw [if_pos h]
    simp [sub_pos.mp h]
  · rw [if_neg h]
    rw [sub_pos] at h
    simp [h]

/-- C8 counterexample: with a protein target of 0 and a current intake of
50 g, the gap analyzer does emit an adjustment, contradicting the claim that a
nonpositive target skips the nutrient. -/
theorem c8_counterexample_zero_target_emits :
    (0 : ℚ) ≤ 0 ∧ gap_adjustment_for userA "protein_g" 0 50 ≠ none := by
  refine ⟨le_refl 0, ?_⟩
  have hclass : classify_gap_severity 0 = some "critical" := by
    simp [classify_gap_severity, critical_threshold]
    norm_num
  have hnot : ¬ ((0 : ℚ) < 0) := lt_irrefl 0
  simp only [gap_adjustment_for, if_neg hnot, hclass]
  simp

/-- C8 as amended: for a nonpositive target the ratio is treated as 0, which
falls into the critical-deficit branch, so the nutrient is not skipped: one
adjustment is emitted, carrying the critical health impact, recommended_intake
equal to the target, adjustment_amount equal to the absolute gap and direction
increase exactly when current is below target. -/
theorem c8_amended_nonpositive_target_emits_critical (user : User) (nutrient : String)
    (target current : ℚ) (ht : target ≤ 0) :
    classify_gap_severity 0 = some "critical" ∧
    ∃ adj, gap_adjustment_for user nutrient target current = some adj ∧
      adj.recommended_intake = target ∧
      adj.current_intake = current ∧
      adj.adjustment_amount = |target - current| ∧
      (adj.adjustment_direction = "increase" ↔ current < target) ∧
      adj.health_impact = get_health_impact nutrient "critical" := by
  have hclass : classify_gap_severity 0 = some "critical" := by
    simp [classify_gap_severity, critical_threshold]
    norm_num
  have hnot : ¬ (0 < target) := not_lt.mpr ht
  have hadj : gap_adjustment_for user nutrient target current = some
      { nutrient_name := nutrient
        current_intake := current
        recommended_intake := target
        adjustment_amount := |target - current|
        adjustment_direction := if 0 < target - current then "increase" else "decrease"
        unit := if nutrient = "calories" then "kcal" else "g"
        reason := get_nutrient_gap_reason nutrient 0 user
        health_impact := get_health_impact nutrient "critical"
        food_sources := get_food_sources_for_nutrient nutrient } := by
    simp only [gap_adjustment_for, if_neg hnot, hclass]
  exact ⟨hclass, _, hadj, rfl, rfl, rfl, gap_direction_iff target current, rfl⟩

theorem c8_amended_witness :
    (0 : ℚ) ≤ 0 ∧
    (classify_gap_severity 0 = some "critical" ∧
     ∃ adj, gap_adjustment_for userA "protein_g" 0 50 = some adj ∧
       adj.recommended_intake = 0 ∧
       adj.current_intake = 50 ∧
       adj.adjustment_amount = |(0 : ℚ) - 50| ∧
       (adj.adjustment_direction = "increase" ↔ (50 : ℚ) < 0) ∧
       adj.health_impact = get_health_impact "protein_g" "critical") :=
  ⟨le_refl 0,
   c8_amended_nonpositive_target_emits_critical userA "protein_g" 0 50 (le_refl 0)⟩

/-- C3: for every macro nutrient with a positive target and ratio r =
current/target, the gap analyzer emits a critical increase adjustment when
r < 0.5, a high-priority deficit adjustment when 0.5 ≤ r < 0.8, nothing when
0.8 ≤ r ≤ 1.5, and an excess adjustment when r > 1.5; every emitted
adjustment has adjustment_amount = the absolute gap, direction increase
exactly when current is below target, and unit kcal for calories and g
otherwise. -/
theorem c3_gap_thresholds (user : User) (nutrient : String) (target current : ℚ)
    (ht : 0 < target) :
    (current / target < 0.5 →
       classify_gap_severity (current / target) = some "critical" ∧
       ∃ adj, gap_adjustment_for user nutrient target current = some adj ∧
         adj.adjustment_direction = "increase") ∧
    (0.5 ≤ current / target → current / target < 0.8 →
       classify_gap_severity (current / target) = some "high" ∧
       (gap_adjustment_for user nutrient target current).isSome = true) ∧
    (0.8 ≤ current / target → current / target ≤ 1.5 →
       gap_adjustment_for user nutrient target current = none) ∧
    (1.5 < current / target →
       classify_gap_severity (current / target) = some "excess" ∧
       (gap_adjustment_for user nutrient target current).isSome = true) ∧
    (∀ adj, gap_adjustment_for user nutrient target current = some adj →
       adj.adjustment_amount = |target - current| ∧
       (adj.adjustment_direction = "increase" ↔ current < target) ∧
       adj.unit = (if nutrient = "calories" then "kcal" else "g")) := by
  refine ⟨?_, ?_, ?_, ?_, ?_⟩
  · intro h
    have hclass : classify_gap_severity (current / target) = some "critical" := by
      simp [classify_gap_severity, critical_threshold, h]
    have hadj := gap_adjustment_eq_of_critical user nutrient target current ht h
    have hcur : current < target := by
      have hlt : current < 0.5 * target := by
        have := (div_lt_iff₀ ht).mp h
        linarith
      linarith
    refine ⟨hclass, _, hadj, ?_⟩
    rw [if_pos (sub_pos.mpr hcur)]
  · intro h1 h2
    have hclass : classify_gap_severity (current / target) = some "high" := by
      simp [classify_gap_severity, critical_threshold, protein_deficit_threshold,
        not_lt.mpr h1, h2]
    refine ⟨hclass, ?_⟩
    rw [gap_adjustment_eq_of_high user nutrient target current ht h1 h2]
    rfl
  · intro h1 h2
    exact gap_adjustment_eq_none user nutrient target current ht h1 h2
  · intro h
    have ha : ¬ (current / target < 0.5) := by norm_num; linarith
    have hb : ¬ (current / target < 0.8) := by norm_num; linarith
    have hclass : classify_gap_severity (current / target) = some "excess" := by
      simp [classify_gap_severity, critical_threshold, protein_deficit_threshold,
        excess_threshold, ha, hb, h]
    refine ⟨hclass, ?_⟩
    rw [gap_adjustment_eq_of_excess user nutrient target current ht h]
    rfl
  · intro adj hadj
    simp only [gap_adjustment_for, if_pos ht] at hadj
    cases hc : classify_gap_severity (current / target) with
    | none =>
      rw [hc] at hadj
      cases hadj
    | some sev =>
      rw [hc] at hadj
      injection hadj with hlit
      subst hlit
      exact ⟨rfl, gap_direction_iff target current, rfl⟩

theorem c3_witness :
    (0 : ℚ) < 100 ∧
    (40 / 100 : ℚ) < 0.5 ∧
    (classify_gap_severity ((40 : ℚ) / 100) = some "critical" ∧
     ∃ adj, gap_adjustment_for userA "protein_g" 100 40 = some adj ∧
       adj.adjustment_direction = "increase") :=
  ⟨by norm_num, by norm_num,
   (c3_gap_thresholds userA "protein_g" 100 40 (by norm_num)).1 (by norm_num)⟩

theorem rec_le_trans (a b c : Recommendation) (h1 : rec_le a b = true)
    (h2 : rec_le b c = true) : rec_le a c = true := by
  simp only [rec_le, decide_eq_true_eq] at *
  rcases h1 with h1 | ⟨e1, f1⟩ <;> rcases h2 with h2 | ⟨e2, f2⟩
  · exact Or.inl (h1.trans h2)
  · exact Or.inl (e2 ▸ h1)
  · exact Or.inl (e1 ▸ h2)
  · exact Or.inr ⟨e1.trans e2, f2.trans f1⟩

theorem rec_le_total (a b : Recommendation) : (rec_le a b || rec_le b a) = true := by
  simp only [rec_le, Bool.or_eq_true, decide_eq_true_eq]
  rcases lt_trichotomy a.priority b.priority with h | h | h
  · exact Or.inl (Or.inl h)
  · rcases le_total a.model_confidence b.model_confidence with hc | hc
    · exact Or.inr (Or.inr ⟨h.symm, hc⟩)
    · exact Or.inl (Or.inr ⟨h, hc⟩)
  · exact Or.inr (Or.inl h)

/-- C5: every list returned by generate_comprehensive_recommendations has at
most ten elements and is sorted ascending by priority, breaking ties by
descending model confidence. -/
theorem c5_output_ranked_and_truncated (env : Env) :
    (generate_comprehensive_recommendations env).length ≤ 10 ∧
    List.Pairwise
      (fun a b => a.priority < b.priority ∨
        (a.priority = b.priority ∧ b.model_confidence ≤ a.model_confidence))
      (generate_comprehensive_recommendations env) := by
  unfold generate_comprehensive_recommendations generate_comprehensive_recommendations_body
  cases hgap : generate_nutrient_gap_recommendations env.user env.profile.macro_targets
      env.current_intake with
  | error e => simp
  | ok gap =>
    simp only
    constructor
    · rw [List.length_take]
      exact min_le_left _ _
    · have hs := List.sorted_mergeSort rec_le_trans rec_le_total
        (gap ++ generate_food_suggestions env ++ generate_meal_plan_recommendations env ++
          generate_health_optimization_recommendations env.user env.current_intake)
      have ht := List.Pairwise.sublist (List.take_sublist 10 _) hs
      refine ht.imp ?_
      intro a b hab
      simpa [rec_le, decide_eq_true_eq] using hab

theorem diabetes_pack_shape (user : User) (intake : Intake) :
    ∀ r ∈ diabetes_recommendations user intake,
      r.recommendation_type = RecommendationType.health_optimization ∧
      r.confidence_level = ConfidenceLevel.high ∧
      r.priority = 2 ∧
      1 ≤ r.nutrient_adjustments.length ∧ r.nutrient_adjustments.length ≤ 2 := by
  intro r hr
  by_cases hf : intake_get intake "fiber_g" < 25 <;>
    simp only [diabetes_recommendations, hf, if_pos, if_neg, if_true, if_false,
      List.isEmpty_cons, List.isEmpty_nil, Bool.false_eq_true, not_false_eq_true,
      reduceIte, List.mem_singleton, List.not_mem_nil] at hr
  · subst hr
    exact ⟨rfl, rfl, rfl, by simp, by simp⟩

theorem hypertension_pack_shape (user : User) (intake : Intake) :
    ∀ r ∈ hypertension_recommendations user intake,
      r.recommendation_type = RecommendationType.health_optimization ∧
      r.confidence_level = ConfidenceLevel.high ∧
      r.priority = 2 ∧
      1 ≤ r.nutrient_adjustments.length ∧ r.nutrient_adjustments.length ≤ 2 := by
  intro r hr
  unfold hypertension_recommendations at hr
  by_cases h1 : 2300 < intake_get intake "sodium_mg" <;>
    by_cases h2 : intake_get intake "potassium_mg" < 3500 <;>
    simp only [h1, h2, if_true, if_false, reduceIte, List.cons_append, List.nil_append,
      List.isEmpty_cons, List.isEmpty_nil, Bool.false_eq_true, not_false_eq_true,
      List.mem_singleton, List.not_mem_nil] at hr <;>
    first
    | exact absurd hr (by simp)
    | (subst hr; exact ⟨rfl, rfl, rfl, by simp, by simp⟩)

theorem heart_pack_shape (user : User) (intake : Intake) :
    ∀ r ∈ heart_health_recommendations user intake,
      r.recommendation_type = RecommendationType.health_optimization ∧
      r.confidence_level = ConfidenceLevel.high ∧
      r.priority = 2 ∧
      1 ≤ r.nutrient_adjustments.length ∧ r.nutrient_adjustments.length ≤ 2 := by
  intro r hr
  by_cases hf : intake_get intake "fiber_g" < 25 <;>
    simp only [heart_health_recommendations, hf, if_true, if_false, reduceIte,
      List.isEmpty_cons, List.isEmpty_nil, Bool.false_eq_true, not_false_eq_true,
      List.mem_singleton, List.not_mem_nil] at hr
  · subst hr
    exact ⟨rfl, rfl, rfl, by simp, by simp⟩

theorem anemia_pack_shape (user : User) (intake : Intake) :
    ∀ r ∈ anemia_recommendations user intake,
      r.recommendation_type = RecommendationType.health_optimization ∧
      r.confidence_level = ConfidenceLevel.high ∧
      r.priority = 2 ∧
      1 ≤ r.nutrient_adjustments.length ∧ r.nutrient_adjustments.length ≤ 2 := by
  intro r hr
  unfold anemia_recommendations at hr
  by_cases h1 : intake_get intake "iron_mg" < 15 <;>
    by_cases h2 : intake_get intake "vitamin_c_mg" < 75 <;>
    simp only [h1, h2, if_true, if_false, reduceIte, List.cons_append, List.nil_append,
      List.isEmpty_cons, List.isEmpty_nil, Bool.false_eq_true, not_false_eq_true,
      List.mem_singleton, List.not_mem_nil] at hr <;>
    first
    | exact absurd hr (by simp)
    | (subst hr; exact ⟨rfl, rfl, rfl, by simp, by simp⟩)

theorem bone_pack_shape (user : User) (intake : Intake) :
    ∀ r ∈ bone_health_recommendations user intake,
      r.recommendation_type = RecommendationType.health_optimization ∧
      r.confidence_level = ConfidenceLevel.high ∧
      r.priority = 2 ∧
      1 ≤ r.nutrient_adjustments.length ∧ r.nutrient_adjustments.length ≤ 2 := by
  intro r hr
  unfold bone_health_recommendations at hr
  by_cases h1 : intake_get intake "calcium_mg" < 1000 <;>
    by_cases h2 : intake_get intake "vitamin_d_mcg" < 15 <;>
    simp only [h1, h2, if_true, if_false, reduceIte, List.cons_append, List.nil_append,
      List.isEmpty_cons, List.isEmpty_nil, Bool.false_eq_true, not_false_eq_true,
      List.mem_singleton, List.not_mem_nil] at hr <;>
    first
    | exact absurd hr (by simp)
    | (subst hr; exact ⟨rfl, rfl, rfl, by simp, by simp⟩)

theorem health_opt_shape (user : User) (intake : Intake) :
    ∀ r ∈ generate_health_optimization_recommendations user intake,
      r.recommendation_type = RecommendationType.health_optimization ∧
      r.confidence_level = ConfidenceLevel.high ∧
      r.priority = 2 ∧
      1 ≤ r.nutrient_adjustments.length ∧ r.nutrient_adjustments.length ≤ 2 := by
  intro r hr
  simp only [generate_health_optimization_recommendations, List.mem_flatMap] at hr
  obtain ⟨c, _, hr⟩ := hr
  simp only [health_pack_for_condition] at hr
  split_ifs at hr
  · exact diabetes_pack_shape user intake r hr
  · exact hypertension_pack_shape user intake r hr
  · exact heart_pack_shape user intake r hr
  · exact anemia_pack_shape user intake r hr
  · exact bone_pack_shape user intake r hr
  · exact absurd hr (by simp)

theorem diabetes_ne_nil_iff (user : User) (intake : Intake) :
    diabetes_recommendations user intake ≠ [] ↔ intake_get intake "fiber_g" < 25 := by
  by_cases hf : intake_get intake "fiber_g" < 25 <;>
    simp [diabetes_recommendations, hf]

theorem hypertension_ne_nil_iff (user : User) (intake : Intake) :
    hypertension_recommendations user intake ≠ [] ↔
      (2300 < intake_get intake "sodium_mg" ∨ intake_get intake "potassium_mg" < 3500) := by
  by_cases h1 : 2300 < intake_get intake "sodium_mg" <;>
    by_cases h2 : intake_get intake "potassium_mg" < 3500 <;>
    simp [hypertension_recommendations, h1, h2]

theorem heart_ne_nil_iff (user : User) (intake : Intake) :
    heart_health_recommendations user intake ≠ [] ↔ intake_get intake "fiber_g" < 25 := by
  by_cases hf : intake_get intake "fiber_g" < 25 <;>
    simp [heart_health_recommendations, hf]

theorem anemia_ne_nil_iff (user : User) (intake : Intake) :
    anemia_recommendations user intake ≠ [] ↔
      (intake_get intake "iron_mg" < 15 ∨ intake_get intake "vitamin_c_mg" < 75) := by
  by_cases h1 : intake_get intake "iron_mg" < 15 <;>
    by_cases h2 : intake_get intake "vitamin_c_mg" < 75 <;>
    simp [anemia_recommendations, h1, h2]

theorem bone_ne_nil_iff (user : User) (intake : Intake) :
    bone_health_recommendations user intake ≠ [] ↔
      (intake_get intake "calcium_mg" < 1000 ∨ intake_get intake "vitamin_d_mcg" < 15) := by
  by_cases h1 : intake_get intake "calcium_mg" < 1000 <;>
    by_cases h2 : intake_get intake "vitamin_d_mcg" < 15 <;>
    simp [bone_health_recommendations, h1, h2]

theorem hypertension_sodium_emitted (user : User) (intake : Intake)
    (h : 2300 < intake_get intake "sodium_mg") :
    ∃ r ∈ hypertension_recommendations user intake, ∃ a ∈ r.nutrient_adjustments,
      a.nutrient_name = "sodium_mg" ∧ a.adjustment_direction = "decrease" ∧
      a.recommended_intake = 1500 := by
  by_cases h2 : intake_get intake "potassium_mg" < 3500 <;>
    simp only [hypertension_recommendations, h, h2, if_true, if_false, reduceIte,
      List.cons_append, List.nil_append, List.isEmpty_cons, Bool.false_eq_true,
      not_false_eq_true] <;>
    exact ⟨_, List.mem_singleton_self _, _, List.mem_cons_self _ _, rfl, rfl, rfl⟩

theorem diabetes_fiber_emitted (user : User) (intake : Intake)
    (h : intake_get intake "fiber_g" < 25) :
    ∃ r ∈ diabetes_recommendations user intake, ∃ a ∈ r.nutrient_adjustments,
      a.nutrient_name = "fiber_g" ∧ a.adjustment_direction = "increase" ∧
      a.recommended_intake = 30 := by
  simp only [diabetes_recommendations, h, if_true, reduceIte, List.isEmpty_cons,
    Bool.false_eq_true, not_false_eq_true]
  exact ⟨_, List.mem_singleton_self _, _, List.mem_cons_self _ _, rfl, rfl, rfl⟩

/-- C6: each matched health condition dispatches to one rule pack; every
recommendation the dispatcher emits has type health_optimization, confidence
high, priority 2 and one or two nutrient adjustments; each pack emits at most
one recommendation and emits one exactly when its fixed thresholds fire; in
particular a hypertension user with sodium above 2300 mg gets a decrease
adjustment to 1500 mg and a diabetes user with fiber below 25 g gets an
increase adjustment to 30 g. -/
theorem c6_condition_rule_packs (user : User) (intake : Intake) :
    (∀ r ∈ generate_health_optimization_recommendations user intake,
        r.recommendation_type = RecommendationType.health_optimization ∧
        r.confidence_level = ConfidenceLevel.high ∧
        r.priority = 2 ∧
        1 ≤ r.nutrient_adjustments.length ∧ r.nutrient_adjustments.length ≤ 2) ∧
    ((diabetes_recommendations user intake).length ≤ 1 ∧
     (hypertension_recommendations user intake).length ≤ 1 ∧
     (heart_health_recommendations user intake).length ≤ 1 ∧
     (anemia_recommendations user intake).length ≤ 1 ∧
     (bone_health_recommendations user intake).length ≤ 1) ∧
    ((diabetes_recommendations user intake ≠ [] ↔ intake_get intake "fiber_g" < 25) ∧
     (hypertension_recommendations user intake ≠ [] ↔
        (2300 < intake_get intake "sodium_mg" ∨ intake_get intake "potassium_mg" < 3500)) ∧
     (heart_health_recommendations user intake ≠ [] ↔ intake_get intake "fiber_g" < 25) ∧
     (anemia_recommendations user intake ≠ [] ↔
        (intake_get intake "iron_mg" < 15 ∨ intake_get intake "vitamin_c_mg" < 75)) ∧
     (bone_health_recommendations user intake ≠ [] ↔
        (intake_get intake "calcium_mg" < 1000 ∨ intake_get intake "vitamin_d_mcg" < 15))) ∧
    (2300 < intake_get intake "sodium_mg" →
       ∃ r ∈ hypertension_recommendations user intake, ∃ a ∈ r.nutrient_adjustments,
         a.nutrient_name = "sodium_mg" ∧ a.adjustment_direction = "decrease" ∧
         a.recommended_intake = 1500) ∧
    (intake_get intake "fiber_g" < 25 →
       ∃ r ∈ diabetes_recommendations user intake, ∃ a ∈ r.nutrient_adjustments,
         a.nutrient_name = "fiber_g" ∧ a.adjustment_direction = "increase" ∧
         a.recommended_intake = 30) := by
  refine ⟨health_opt_shape user intake, ⟨?_, ?_, ?_, ?_, ?_⟩,
    ⟨diabetes_ne_nil_iff user intake, hypertension_ne_nil_iff user intake,
     heart_ne_nil_iff user intake, anemia_ne_nil_iff user intake,
     bone_ne_nil_iff user intake⟩,
    hypertension_sodium_emitted user intake, diabetes_fiber_emitted user intake⟩
  · by_cases hf : intake_get intake "fiber_g" < 25 <;>
      simp [diabetes_recommendations, hf]
  · by_cases h1 : 2300 < intake_get intake "sodium_mg" <;>
      by_cases h2 : intake_get intake "potassium_mg" < 3500 <;>
      simp [hypertension_recommendations, h1, h2]
  · by_cases hf : intake_get intake "fiber_g" < 25 <;>
      simp [heart_health_recommendations, hf]
  · by_cases h1 : intake_get intake "iron_mg" < 15 <;>
      by_cases h2 : intake_get intake "vitamin_c_mg" < 75 <;>
      simp [anemia_recommendations, h1, h2]
  · by_cases h1 : intake_get intake "calcium_mg" < 1000 <;>
      by_cases h2 : intake_get intake "vitamin_d_mcg" < 15 <;>
      simp [bone_health_recommendations, h1, h2]

/-- A hypertension user. -/
def userH : User :=
  { id := "user-h", health_conditions := [{ name := "Hypertension" }] }

/-- Scenario C intake: sodium 3000 mg. -/
def intakeH : Intake := [("sodium_mg", 3000), ("potassium_mg", 4000)]

theorem c6_witness :
    (2300 : ℚ) < intake_get intakeH "sodium_mg" ∧
    (∃ r ∈ hypertension_recommendations userH intakeH, ∃ a ∈ r.nutrient_adjustments,
       a.nutrient_name = "sodium_mg" ∧ a.adjustment_direction = "decrease" ∧
       a.recommended_intake = 1500) :=
  ⟨by rw [show intake_get intakeH "sodium_mg" = 3000 from rfl]; norm_num,
   (c6_condition_rule_packs userH intakeH).2.2.2.1
     (by rw [show intake_get intakeH "sodium_mg" = 3000 from rfl]; norm_num)⟩

theorem gap_recs_ok_nil (user : User) (t : MacroTargets) (intake : Intake)
    (l : List Recommendation)
    (h : generate_nutrient_gap_recommendations user t intake = Except.ok l) :
    l = [] := by
  simp only [generate_nutrient_gap_recommendations] at h
  by_cases he : (compute_nutrient_adjustments user t intake).isEmpty
  · rw [if_pos he] at h
    injection h with h
    exact h.symm
  · rw [if_neg he] at h
    cases hadj : compute_nutrient_adjustments user t intake with
    | nil => rw [hadj] at he; simp at he
    | cons a rest =>
      rw [hadj] at h
      simp [gap_rec_priority, nutrient_adjustment_priority_attr] at h

theorem body_ok_of_gap_ok (env : Env) (gap : List Recommendation)
    (h : generate_nutrient_gap_recommendations env.user env.profile.macro_targets
        env.current_intake = Except.ok gap) :
    generate_comprehensive_recommendations_body env =
      Except.ok
        (((gap ++ generate_food_suggestions env ++ generate_meal_plan_recommendations env ++
            generate_health_optimization_recommendations env.user env.current_intake).mergeSort
              rec_le).take 10) := by
  unfold generate_comprehensive_recommendations_body
  rw [h]

theorem food_suggestions_nil_of_generator_empty (env : Env)
    (hgen : ∀ req, env.suggestion_generator req = Except.error () ∨
        env.suggestion_generator req = Except.ok []) :
    generate_food_suggestions env = [] := by
  simp only [generate_food_suggestions]
  by_cases hd : (deficit_nutrients env.profile.macro_targets env.current_intake).isEmpty
  · rw [if_pos hd]
  · rw [if_neg hd]
    rcases hgen
        { user_profile := user_profile_summary env.user
          nutrition_targets :=
            food_suggestion_targets env.profile.macro_targets env.current_intake
          dietary_restrictions := env.user.dietary_restrictions.map (fun r => r.type)
          meal_type := target_meal_type env } with h | h <;> rw [h]
    simp

theorem meal_plan_slots_empty (env : Env)
    (hgen : ∀ req, env.suggestion_generator req = Except.error () ∨
        env.suggestion_generator req = Except.ok []) :
    ∀ dist, meal_plan_slots env dist = Except.error () ∨
      meal_plan_slots env dist = Except.ok [] := by
  intro dist
  induction dist with
  | nil => exact Or.inr rfl
  | cons head rest ih =>
    obtain ⟨mt, pct⟩ := head
    simp only [meal_plan_slots]
    rcases hgen
        { user_profile := user_profile_summary env.user
          nutrition_targets :=
            [("calories", env.profile.macro_targets.calories * pct),
             ("protein_g", env.profile.macro_targets.protein_g * pct),
             ("carbs_g", env.profile.macro_targets.carbs_g * pct),
             ("fat_g", env.profile.macro_targets.fat_g * pct)]
          dietary_restrictions := env.user.dietary_restrictions.map (fun r => r.type)
          meal_type := mt } with h | h <;> rw [h]
    · exact Or.inl rfl
    · rcases ih with h2 | h2 <;> rw [h2]
      · exact Or.inl rfl
      · simp

theorem meal_plan_nil_of_generator_empty (env : Env)
    (hgen : ∀ req, env.suggestion_generator req = Except.error () ∨
        env.suggestion_generator req = Except.ok []) :
    generate_meal_plan_recommendations env = [] := by
  simp only [generate_meal_plan_recommendations]
  by_cases hr : env.recent_log_count < 5
  · rw [if_pos hr]
    rcases meal_plan_slots_empty env hgen env.profile.meal_distribution with h | h <;>
      rw [h]
    simp
  · rw [if_neg hr]

/-- C7: when the external suggestion generator fails or returns an empty list,
no food_suggestion Recommendation appears in the generated output and the
failure is absorbed; and whenever the generation body raises, the top-level
handler turns the whole pass into an empty list. -/
theorem c7_generator_failure_absorbed (env : Env)
    (hgen : ∀ req, env.suggestion_generator req = Except.error () ∨
        env.suggestion_generator req = Except.ok []) :
    (∀ r ∈ generate_comprehensive_recommendations env,
        r.recommendation_type ≠ RecommendationType.food_suggestion) ∧
    (∀ e, generate_comprehensive_recommendations_body env = Except.error e →
        generate_comprehensive_recommendations env = []) := by
  constructor
  · intro r hr
    cases hgap : generate_nutrient_gap_recommendations env.user env.profile.macro_targets
        env.current_intake with
    | error e =>
      have hbody : generate_comprehensive_recommendations_body env = Except.error e := by
        unfold generate_comprehensive_recommendations_body
        rw [hgap]
      have hout : generate_comprehensive_recommendations env = [] := by
        unfold generate_comprehensive_recommendations
        rw [hbody]
      rw [hout] at hr
      simp at hr
    | ok gap =>
      have hbody := body_ok_of_gap_ok env gap hgap
      have hout : generate_comprehensive_recommendations env =
          ((gap ++ generate_food_suggestions env ++ generate_meal_plan_recommendations env ++
            generate_health_optimization_recommendations env.user env.current_intake).mergeSort
              rec_le).take 10 := by
        unfold generate_comprehensive_recommendations
        rw [hbody]
      rw [hout, gap_recs_ok_nil _ _ _ _ hgap,
        food_suggestions_nil_of_generator_empty env hgen,
        meal_plan_nil_of_generator_empty env hgen] at hr
      simp only [List.nil_append, List.append_nil] at hr
      have hr2 := List.mem_of_mem_take hr
      rw [List.mem_mergeSort] at hr2
      rw [(health_opt_shape env.user env.current_intake r hr2).1]
      simp
  · intro e he
    unfold generate_comprehensive_recommendations
    rw [he]

/-- Scenario D environment: the external generator returns an empty list for
every request. -/
def envD : Env :=
  { user := userA
    profile := { user_id := "user-a", macro_targets := macroTargetsA }
    current_intake := intakeA
    current_hour := 12
    recent_log_count := 0
    suggestion_generator := fun _ => Except.ok [] }

theorem c7_witness :
    (∀ r ∈ generate_comprehensive_recommendations envD,
        r.recommendation_type ≠ RecommendationType.food_suggestion) ∧
    (∀ e, generate_comprehensive_recommendations_body envD = Except.error e →
        generate_comprehensive_recommendations envD = []) :=
  c7_generator_failure_absorbed envD (fun _ => Or.inr rfl)

theorem update_feedback_is_viewed (rec : Recommendation) (ia : Bool)
    (rating : Option Int) (feedback : Option String) :
    (update_recommendation_feedback rec ia rating feedback).is_viewed = true := by
  unfold update_recommendation_feedback
  cases rating <;> cases feedback <;> dsimp only <;> split_ifs <;> rfl

theorem update_feedback_stores_text (rec : Recommendation) (ia : Bool)
    (rating : Option Int) (s : String) (hne : s ≠ "") :
    (update_recommendation_feedback rec ia rating (some s)).user_feedback = some s := by
  unfold update_recommendation_feedback
  cases rating <;> dsimp only <;> rw [if_pos hne]

/-- A stored recommendation with no feedback recorded yet. -/
def storedRec0 : Recommendation :=
  { user_id := "user-a"
    recommendation_type := RecommendationType.nutrient_adjustment
    title := "Nutrition Balance Optimization"
    description := "Adjust your nutrient intake to better meet your daily targets"
    confidence_level := ConfidenceLevel.high
    model_version := "1.0"
    model_confidence := 0.85
    priority := 3
    expected_impact := "medium"
    implementation_difficulty := "easy"
    time_horizon := "immediate" }

/-- A feedback text of 1001 characters. -/
def longFeedback : String := ⟨List.replicate 1001 (Char.ofNat 97)⟩

/-- The over-long-feedback payload. -/
def payloadLong : FeedbackPayload :=
  { recommendation_id := "rec-1", is_accepted := true, feedback := some longFeedback }

/-- C9 counterexample: a feedback submission whose text is 1001 characters
long is not rejected at the boundary: it is accepted and mutates the stored
recommendation, setting is_viewed, is_accepted and user_feedback. -/
theorem c9_counterexample_long_feedback_mutates :
    1000 < longFeedback.length ∧
    submit_feedback storedRec0 payloadLong =
      Except.ok
        { storedRec0 with
            is_viewed := true
            is_accepted := true
            user_feedback := some longFeedback } ∧
    storedRec0.is_viewed = false ∧
    storedRec0.is_accepted = false ∧
    storedRec0.user_feedback = none := by
  refine ⟨?_, ?_, rfl, rfl, rfl⟩
  · have h : longFeedback.length = 1001 := by
      show (List.replicate 1001 (Char.ofNat 97)).length = 1001
      rw [List.length_replicate]
    omega
  · rfl

/-- C9 as amended: a rating outside 1 to 5 is rejected at the
feedback-submission boundary before any mutation (the pydantic range check on
the RecommendationFeedback schema), but an over-long feedback text is not: no
length check is reachable (validate_recommendation_feedback is dead code), so
whenever the rating passes, any nonempty feedback string of any length is
accepted and written to the stored recommendation. -/
theorem c9_amended_rating_checked_length_unchecked (stored : Recommendation)
    (p : FeedbackPayload) :
    (∀ r, p.rating = some r → (r < 1 ∨ 5 < r) →
       submit_feedback stored p = Except.error FeedbackRejection.ratingOutOfRange) ∧
    ((p.rating = none ∨ ∃ r, p.rating = some r ∧ 1 ≤ r ∧ r ≤ 5) →
       ∃ updated, submit_feedback stored p = Except.ok updated ∧
         updated.is_viewed = true ∧
         updated.is_accepted = p.is_accepted ∧
         ∀ s, p.feedback = some s → s ≠ "" → updated.user_feedback = some s) := by
  constructor
  · intro r hr hout
    have hnot : ¬ (1 ≤ r ∧ r ≤ 5) := by
      rcases hout with h | h <;> omega
    simp [submit_feedback, parse_recommendation_feedback, hr, hnot]
  · intro hok
    have hparse : parse_recommendation_feedback p = Except.ok p := by
      rcases hok with h | ⟨r, hr, h1, h5⟩
      · simp [parse_recommendation_feedback, h]
      · simp [parse_recommendation_feedback, hr, h1, h5]
    refine ⟨update_recommendation_feedback stored p.is_accepted p.rating p.feedback,
      by simp [submit_feedback, hparse], update_feedback_is_viewed stored _ _ _, ?_, ?_⟩
    · unfold update_recommendation_feedback
      cases p.rating <;> cases p.feedback <;> dsimp only <;> split_ifs <;> rfl
    · intro s hs hne
      rw [hs]
      exact update_feedback_stores_text stored p.is_accepted p.rating s hne

/-- The rating-six payload. -/
def payloadRating6 : FeedbackPayload :=
  { recommendation_id := "rec-1", is_accepted := false, rating := some 6 }

theorem c9_witness :
    payloadRating6.rating = some 6 ∧
    ((6 : Int) < 1 ∨ (5 : Int) < 6) ∧
    submit_feedback storedRec0 payloadRating6 =
      Except.error FeedbackRejection.ratingOutOfRange :=
  ⟨rfl, Or.inr (by norm_num),
   (c9_amended_rating_checked_length_unchecked storedRec0 payloadRating6).1 6 rfl
     (Or.inr (by norm_num))⟩

/-- C10: for each user allergy string that matches an allergen group of the
fixed mapping (the lowered allergy occurs in the group name, or some group
keyword occurs in the lowered allergy), if the combined name-plus-ingredient
text of the suggestion contains any keyword of the group, the screener appends
the May-contain warning for that group. -/
theorem c10_allergen_warning (s : AiSuggestion) (allergies : List String)
    (allergy grp : String) (kws : List String)
    (hmem : allergy ∈ allergies)
    (hgrp : (grp, kws) ∈ common_allergens)
    (hmatch : (strContains grp (lowerStr allergy) ||
        kws.any (fun k => strContains (lowerStr allergy) k)) = true)
    (htext : kws.any (fun k => strContains (suggestion_text s) k) = true) :
    ("May contain " ++ grp) ∈ check_allergens s allergies := by
  simp only [check_allergens, List.mem_flatMap]
  refine ⟨allergy, hmem, ?_⟩
  simp only [List.mem_filterMap]
  refine ⟨(grp, kws), hgrp, ?_⟩
  simp [hmatch, htext]

/-- The scenario suggestion of the allergen-screening property. -/
def peanutToastSuggestion : AiSuggestion :=
  { name := "Peanut butter toast", rationale := "High protein breakfast option" }

theorem c10_witness :
    "peanut" ∈ ["peanut"] ∧
    ("peanuts", ["peanut", "peanuts"]) ∈ common_allergens ∧
    "May contain peanuts" ∈ check_allergens peanutToastSuggestion ["peanut"] :=
  ⟨by simp, by decide,
   c10_allergen_warning peanutToastSuggestion ["peanut"] "peanut" "peanuts"
     ["peanut", "peanuts"] (by simp) (by decide) (by decide) (by decide)⟩
